import Mathlib

/-!
# TrackMyMood — sentiment-to-mood scoring pipeline and journal routes

Shallow embedding of `src/server/models/JournalEntry.js`: the sentiment
scorer (`determineMood`, `analyzeSentiment`), the `POST /journal/analyze`
boundary, and the journal CRUD handlers, together with theorems checking
the specification's claims about them.

Scores are modelled as rationals (`ℚ`); every constant involved (the
thresholds 4, 2, 0.5, −0.5, −2, −4 and the keyword weight 0.5) is exactly
representable, so rational arithmetic agrees with the source's
floating-point arithmetic on all values this development manipulates.

The third-party `natural` package (the AFINN polarity lexicon and the
word tokenizer) is not part of this repository; per the spec it is an
external, replaceable collaborator. The base-lexicon score is therefore a
parameter `lex : String → ℚ` (unrecognized words map to 0), and the
tokenizer is modelled from the spec's description.
-/

namespace TrackMyMood

/-- Result of sentiment analysis: the `{ score, mood }` object returned by
`analyzeSentiment` (src/server/models/JournalEntry.js, lines 143–146). -/
structure AnalyzeResult where
  score : ℚ
  mood : String
  deriving DecidableEq, Repr

/-- Source `determineMood` (src/server/models/JournalEntry.js, lines 115–123):
the ordered strict-greater-than threshold table, evaluated top-down. -/
def determineMood (score : ℚ) : String :=
  if score > 4 then "Ecstatic"
  else if score > 2 then "Happy"
  else if score > 1/2 then "Content"
  else if score > -(1/2) then "Neutral"
  else if score > -2 then "Sad"
  else if score > -4 then "Depressed"
  else "Very Depressed"

/-- The `emotionalKeywords.positive` list (line 132). -/
def positiveKeywords : List String :=
  ["happy", "joy", "excited", "wonderful", "love", "great", "amazing"]

/-- The `emotionalKeywords.negative` list (line 133). -/
def negativeKeywords : List String :=
  ["sad", "depressed", "anxious", "worried", "stressed", "angry", "upset"]

/-- The body of the `tokens.forEach` adjustment loop (lines 137–140):
`+0.5` if the token is a positive keyword, `−0.5` if a negative one. -/
def adjustStep (acc : ℚ) (token : String) : ℚ :=
  let acc1 := if positiveKeywords.contains token then acc + 1/2 else acc
  if negativeKeywords.contains token then acc1 - 1/2 else acc1

/-- The keyword adjustment accumulated over the token sequence
(lines 136–140): a left fold of `adjustStep` starting from 0. -/
def adjustment (tokens : List String) : ℚ :=
  tokens.foldl adjustStep 0

/-- A word character for tokenization: ASCII letter, digit or
underscore; everything else is a delimiter. -/
def isWordChar (c : Char) : Bool :=
  c.isAlphanum || c = '_'

/-- Modelled from the spec: `text.toLowerCase()` — lowercase every
character. -/
def lowercase (s : String) : String :=
  String.mk (s.data.map Char.toLower)

/-- Tokenization worker: `acc` holds the (reversed) characters of the
word currently being read; a delimiter or the end of input emits the
pending word, and empty fragments are dropped. -/
def tokenizeAux (acc : List Char) : List Char → List String
  | [] => if acc = [] then [] else [String.mk acc.reverse]
  | c :: cs =>
    if isWordChar c then tokenizeAux (c :: acc) cs
    else if acc = [] then tokenizeAux [] cs
    else String.mk acc.reverse :: tokenizeAux [] cs

/-- Modelled from the spec: the word tokenizer. The source delegates to
`natural.WordTokenizer`, an external collaborator not in this repository;
spec §4.1 step 1 describes word-boundary segmentation with
whitespace/punctuation delimiters. Splits on every character that is not
a word character and drops empty fragments. -/
def tokenize (s : String) : List String :=
  tokenizeAux [] s.data

/-- Modelled from the spec: the base polarity-lexicon score. The source
delegates to `natural.SentimentAnalyzer` (AFINN), an external collaborator
not in this repository; spec §4.1 step 2 describes a word → polarity
lexicon aggregated over tokens, unrecognized tokens contributing zero.
The lexicon is the parameter `lex`, total with value 0 off its domain. -/
def baseScore (lex : String → ℚ) (tokens : List String) : ℚ :=
  (tokens.map lex).sum

/-- Source `analyzeSentiment` (lines 126–147), with the external base lexicon as
the parameter `lex`: lowercase, tokenize, base score, keyword adjustment,
final score, mood label. -/
def analyzeSentiment (lex : String → ℚ) (text : String) : AnalyzeResult :=
  let tokens := tokenize (lowercase text)
  let score := baseScore lex tokens
  let finalScore := score + adjustment tokens
  { score := finalScore, mood := determineMood finalScore }

/-- The seven mood labels, listed in ascending mood order. -/
def moodLabels : List String :=
  ["Very Depressed", "Depressed", "Sad", "Neutral", "Content", "Happy", "Ecstatic"]

/-- Spec §4.1 step 5: the ordered threshold table, applied top-down,
first match wins (transcribed from the spec's table, for refinement). -/
def moodTableSpec (s : ℚ) : String :=
  if s > 4 then "Ecstatic"
  else if s > 2 then "Happy"
  else if s > 1/2 then "Content"
  else if s > -(1/2) then "Neutral"
  else if s > -2 then "Sad"
  else if s > -4 then "Depressed"
  else "Very Depressed"

/-- The position of a label in the ascending mood order
Very Depressed < Depressed < Sad < Neutral < Content < Happy < Ecstatic. -/
def labelRank : String → ℕ
  | "Very Depressed" => 0
  | "Depressed" => 1
  | "Sad" => 2
  | "Neutral" => 3
  | "Content" => 4
  | "Happy" => 5
  | "Ecstatic" => 6
  | _ => 7

/-- An HTTP response: status code and body. -/
structure HttpResponse (β : Type) where
  status : Nat
  body : β
  deriving DecidableEq, Repr

/-- Body of a `POST /journal/analyze` response: an error message or the
scorer's result. -/
inductive AnalyzeBody where
  | message (m : String)
  | result (r : AnalyzeResult)
  deriving DecidableEq, Repr

/-- JS truthiness of an optional string field: `none` (absent) and `""`
are the falsy cases. -/
def strFalsy (x : Option String) : Prop :=
  x = none ∨ x = some ""

instance (x : Option String) : Decidable (strFalsy x) := by
  unfold strFalsy
  infer_instance

/-- The `POST /journal/analyze` handler (lines 149–158). `text = none`
models an absent field; the JS guard `if (!text)` rejects absent and
empty text with 400, otherwise the scorer runs and its result is sent
with 200. -/
def postAnalyze (lex : String → ℚ) (text : Option String) : HttpResponse AnalyzeBody :=
  match text with
  | none => ⟨400, .message "Text is required"⟩
  | some t =>
    if t = "" then ⟨400, .message "Text is required"⟩
    else ⟨200, .result (analyzeSentiment lex t)⟩

/-- The three tag lists of a stored journal entry. -/
structure Tags where
  emotions : List String
  people : List String
  activities : List String
  deriving DecidableEq, Repr

/-- A persisted journal entry (the `JournalEntry` schema, lines 3–39);
timestamps are abstract instants (`Nat`). -/
structure StoredEntry where
  user : String
  title : String
  content : String
  sentimentScore : ℚ
  mood : String
  tags : Tags
  createdAt : Nat
  updatedAt : Nat
  deriving DecidableEq, Repr

/-- The optional `tags` object of a request body; each category may be
absent. -/
structure TagsInput where
  emotions : Option (List String)
  people : Option (List String)
  activities : Option (List String)
  deriving DecidableEq, Repr

/-- JS `x || d` on an optional string: absent and `""` fall back to `d`. -/
def strOr (x : Option String) (d : String) : String :=
  match x with
  | none => d
  | some s => if s = "" then d else s

/-- JS `x || d` on an optional number: absent and `0` fall back to `d`. -/
def numOr (x : Option ℚ) (d : ℚ) : ℚ :=
  match x with
  | none => d
  | some s => if s = 0 then d else s

/-- JS `x || d` on an optional array: only absence falls back (an empty
array is truthy). -/
def arrOr (x : Option (List String)) (d : List String) : List String :=
  x.getD d

/-- Body of a journal CRUD response: an error message or an entry. -/
inductive EntryBody where
  | message (m : String)
  | entry (e : StoredEntry)
  deriving DecidableEq, Repr

/-- The `POST /api/journal` handler (lines 163–192): rejects falsy title
or content with 400, otherwise builds the entry with the JS `||` defaults
(`sentimentScore || 0`, `mood || 'Neutral'`, `tags?.x || []`) and saves it
at time `now` (the pre-save hook, lines 42–45, stamps `updatedAt`). -/
def createEntry (now : Nat) (userId : String)
    (title content : Option String) (sentimentScore : Option ℚ)
    (mood : Option String) (tags : Option TagsInput) : HttpResponse EntryBody :=
  if strFalsy title ∨ strFalsy content then
    ⟨400, .message "Title and content are required"⟩
  else
    ⟨201, .entry
      { user := userId
        title := title.getD ""
        content := content.getD ""
        sentimentScore := numOr sentimentScore 0
        mood := strOr mood "Neutral"
        tags :=
          { emotions := arrOr (tags.bind TagsInput.emotions) []
            people := arrOr (tags.bind TagsInput.people) []
            activities := arrOr (tags.bind TagsInput.activities) [] }
        createdAt := now
        updatedAt := now }⟩

/-- The document store, indexed by entry id. -/
def Store : Type := Nat → Option StoredEntry

/-- The `GET /api/journal/:id` handler (lines 210–229): 404 when the
entry is missing, 403 when it belongs to another user, otherwise 200
with the entry. -/
def getById (store : Store) (userId : String) (eid : Nat) : HttpResponse EntryBody :=
  match store eid with
  | none => ⟨404, .message "Entry not found"⟩
  | some e =>
    if e.user ≠ userId then ⟨403, .message "Not authorized"⟩
    else ⟨200, .entry e⟩

/-- The request body of `PUT /api/journal/:id`; every field optional. -/
structure UpdateBody where
  title : Option String
  content : Option String
  sentimentScore : Option ℚ
  mood : Option String
  tags : Option TagsInput
  deriving DecidableEq, Repr

/-- The field assignments of the PUT handler (lines 252–263):
`x || old` for title/content/mood, an explicit `!== undefined` check for
`sentimentScore`, and per-category `||` fallback inside a truthy `tags`. -/
def updateFields (e : StoredEntry) (b : UpdateBody) : StoredEntry :=
  { e with
    title := strOr b.title e.title
    content := strOr b.content e.content
    sentimentScore := b.sentimentScore.getD e.sentimentScore
    mood := strOr b.mood e.mood
    tags :=
      match b.tags with
      | none => e.tags
      | some t =>
        { emotions := arrOr t.emotions e.tags.emotions
          people := arrOr t.people e.tags.people
          activities := arrOr t.activities e.tags.activities } }

/-- The pre-save hook (lines 42–45): stamps `updatedAt` with the save
time. -/
def presave (now : Nat) (e : StoredEntry) : StoredEntry :=
  { e with updatedAt := now }

/-- The `PUT /api/journal/:id` handler (lines 234–271): 404 when missing,
403 for a non-owner (store untouched), otherwise apply the field updates,
save at time `now`, respond 200 with the saved entry. -/
def putById (now : Nat) (store : Store) (userId : String) (eid : Nat)
    (b : UpdateBody) : HttpResponse EntryBody × Store :=
  match store eid with
  | none => (⟨404, .message "Entry not found"⟩, store)
  | some e =>
    if e.user ≠ userId then (⟨403, .message "Not authorized"⟩, store)
    else
      let e1 := presave now (updateFields e b)
      (⟨200, .entry e1⟩, fun i => if i = eid then some e1 else store i)

/-- The `DELETE /api/journal/:id` handler (lines 276–296): 404 when
missing, 403 for a non-owner (store untouched), otherwise remove the
entry. -/
def deleteById (store : Store) (userId : String) (eid : Nat) :
    HttpResponse EntryBody × Store :=
  match store eid with
  | none => (⟨404, .message "Entry not found"⟩, store)
  | some e =>
    if e.user ≠ userId then (⟨403, .message "Not authorized"⟩, store)
    else (⟨200, .message "Entry removed"⟩, fun i => if i = eid then none else store i)

/-- A sample stored entry, for concrete checks. -/
def sampleEntry : StoredEntry :=
  { user := "alice"
    title := "a day"
    content := "it was fine"
    sentimentScore := 0
    mood := "Neutral"
    tags := ⟨[], [], []⟩
    createdAt := 0
    updatedAt := 0 }

/-- A one-entry sample store (the sample entry lives at id 0). -/
def sampleStore : Store := fun i => if i = 0 then some sampleEntry else none

/-- A PUT body with every field absent. -/
def emptyBody : UpdateBody := ⟨none, none, none, none, none⟩

theorem determineMood_mem (s : ℚ) : determineMood s ∈ moodLabels := by
  unfold determineMood
  split_ifs <;> simp [moodLabels]

theorem determineMood_eq_table (s : ℚ) : determineMood s = moodTableSpec s := rfl

theorem numOr_some_self (s : ℚ) : numOr (some s) 0 = s := by
  by_cases h : s = 0 <;> simp [numOr, h]

theorem strOr_some_of_ne (s d : String) (h : s ≠ "") : strOr (some s) d = s := by
  simp [strOr, h]

theorem determineMood_ne_empty (s : ℚ) : determineMood s ≠ "" := by
  unfold determineMood
  split_ifs <;> simp

theorem foldl_adjustStep (ts : List String) (a : ℚ) :
    ts.foldl adjustStep a
      = a + ((ts.countP fun t => positiveKeywords.contains t : ℚ)
              - (ts.countP fun t => negativeKeywords.contains t : ℚ)) * (1/2) := by
  induction ts generalizing a with
  | nil => simp
  | cons t ts ih =>
    by_cases hp : positiveKeywords.contains t <;>
      by_cases hn : negativeKeywords.contains t <;>
        simp only [List.foldl_cons, List.countP_cons, ih, adjustStep, hp, hn,
          if_true, if_false, decide_eq_true_eq] <;>
        push_cast <;> ring

theorem adjustment_as_counts (ts : List String) :
    adjustment ts
      = ((ts.countP fun t => positiveKeywords.contains t : ℚ)
          - (ts.countP fun t => negativeKeywords.contains t : ℚ)) * (1/2) := by
  have h := foldl_adjustStep ts 0
  simpa [adjustment] using h

/-- C1: for every lexicon and text, `analyze(text).mood` is exactly the
threshold table of spec §4.1 applied to `analyze(text).score`, the label
is one of the seven fixed ones, and the boundaries are strict: a score of
exactly 2 maps to "Content" and exactly 4 maps to "Happy". -/
theorem analyze_mood_from_threshold_table (lex : String → ℚ) (text : String) :
    (analyzeSentiment lex text).mood = moodTableSpec (analyzeSentiment lex text).score
    ∧ (analyzeSentiment lex text).mood ∈ moodLabels
    ∧ determineMood 2 = "Content"
    ∧ determineMood 4 = "Happy" := by
  refine ⟨rfl, determineMood_mem _, ?_, ?_⟩ <;> norm_num [determineMood]

/-- C2: the keyword adjustment is `(#positive − #negative) · 0.5` counted
over token occurrences, the final score is the base score plus the
adjustment with nothing else applied, and one positive plus one negative
keyword occurrence gives adjustment 0 and final score equal to the base
score. -/
theorem keyword_adjustment_linear (lex : String → ℚ) (tokens : List String)
    (text : String) :
    adjustment tokens
      = ((tokens.countP fun t => positiveKeywords.contains t : ℚ)
          - (tokens.countP fun t => negativeKeywords.contains t : ℚ)) * (1/2)
    ∧ (analyzeSentiment lex text).score
        = baseScore lex (tokenize (lowercase text))
            + adjustment (tokenize (lowercase text))
    ∧ ((tokens.countP fun t => positiveKeywords.contains t) = 1
        → (tokens.countP fun t => negativeKeywords.contains t) = 1
        → adjustment tokens = 0
          ∧ baseScore lex tokens + adjustment tokens = baseScore lex tokens) := by
  refine ⟨adjustment_as_counts tokens, rfl, fun hp hn => ?_⟩
  have h0 : adjustment tokens = 0 := by
    rw [adjustment_as_counts, hp, hn]
    norm_num
  exact ⟨h0, by rw [h0, add_zero]⟩

theorem keyword_adjustment_linear_witness :
    ((["happy", "tired", "sad"].countP fun t => positiveKeywords.contains t) = 1)
    ∧ ((["happy", "tired", "sad"].countP fun t => negativeKeywords.contains t) = 1)
    ∧ adjustment ["happy", "tired", "sad"] = 0 :=
  ⟨by decide, by decide,
    ((keyword_adjustment_linear (fun _ => 0) ["happy", "tired", "sad"] "").2.2
      (by decide) (by decide)).1⟩

/-- C3: analyzing the empty string yields score 0 and mood "Neutral"
(no tokens, hence zero base score and zero adjustment), for every
lexicon. -/
theorem analyze_empty_neutral (lex : String → ℚ) :
    analyzeSentiment lex "" = ⟨0, "Neutral"⟩ := by
  have ht : tokenize (lowercase "") = [] := rfl
  simp only [analyzeSentiment, ht, baseScore, adjustment, List.map_nil,
    List.sum_nil, List.foldl_nil, add_zero]
  norm_num [determineMood]

/-- C4: `POST /journal/analyze` responds 400 with "Text is required"
exactly when the text field is absent or empty; on any non-empty text it
responds 200 with the scorer's output; and on absent/empty text the
response does not depend on the scorer (the scorer is not invoked). -/
theorem post_analyze_validation (lex lex' : String → ℚ) (text : Option String) :
    (postAnalyze lex text = ⟨400, .message "Text is required"⟩ ↔ strFalsy text)
    ∧ (∀ t, text = some t → t ≠ ""
        → postAnalyze lex text = ⟨200, .result (analyzeSentiment lex t)⟩)
    ∧ (strFalsy text → postAnalyze lex text = postAnalyze lex' text) := by
  match text with
  | none => simp [postAnalyze, strFalsy]
  | some t =>
    by_cases h : t = "" <;>
      simp [postAnalyze, strFalsy, h]

theorem post_analyze_validation_witness :
    (some "ok" = some "ok") ∧ ("ok" ≠ "")
    ∧ postAnalyze (fun _ => 0) (some "ok")
        = ⟨200, .result (analyzeSentiment (fun _ => 0) "ok")⟩ :=
  ⟨rfl, by decide,
    (post_analyze_validation (fun _ => 0) (fun _ => 0) (some "ok")).2.1 "ok" rfl
      (by decide)⟩

/-- C5: the scorer is deterministic — it is a pure function of its text
(and the constant lexicons), and the mood in its result is a pure
function of the score alone: equal scores give equal moods, across any
two invocations. -/
theorem analyze_deterministic (lex lex' : String → ℚ) (text text' : String)
    (h : (analyzeSentiment lex text).score = (analyzeSentiment lex' text').score) :
    analyzeSentiment lex text = analyzeSentiment lex text
    ∧ (analyzeSentiment lex text).mood
        = determineMood (analyzeSentiment lex text).score
    ∧ (analyzeSentiment lex text).mood = (analyzeSentiment lex' text').mood := by
  refine ⟨rfl, rfl, ?_⟩
  have h1 : (analyzeSentiment lex text).mood
      = determineMood (analyzeSentiment lex text).score := rfl
  have h2 : (analyzeSentiment lex' text').mood
      = determineMood (analyzeSentiment lex' text').score := rfl
  rw [h1, h2, h]

theorem analyze_deterministic_witness :
    ((analyzeSentiment (fun _ => 0) "").score
        = (analyzeSentiment (fun _ => 0) "").score)
    ∧ (analyzeSentiment (fun _ => 0) "").mood
        = (analyzeSentiment (fun _ => 0) "").mood :=
  ⟨rfl, (analyze_deterministic (fun _ => 0) (fun _ => 0) "" "" rfl).2.2⟩

/-- C6: the pipeline is total on every string (a Lean function, so it
terminates and throws nothing), its mood is always one of the seven
labels, and unrecognized tokens are inert: a token outside the polarity
lexicon contributes zero to the base score, and a token outside both
keyword lists contributes zero to the adjustment. -/
theorem unrecognized_tokens_contribute_zero (lex : String → ℚ) (t : String)
    (ts : List String) (a : ℚ) (text : String)
    (hlex : lex t = 0) (hp : t ∉ positiveKeywords) (hn : t ∉ negativeKeywords) :
    baseScore lex (t :: ts) = baseScore lex ts
    ∧ adjustStep a t = a
    ∧ adjustment (t :: ts) = adjustment ts
    ∧ (analyzeSentiment lex text).mood ∈ moodLabels := by
  have hstep : ∀ b : ℚ, adjustStep b t = b := by
    intro b
    simp [adjustStep, hp, hn]
  refine ⟨by simp [baseScore, hlex], hstep a, ?_, determineMood_mem _⟩
  show (t :: ts).foldl adjustStep 0 = ts.foldl adjustStep 0
  rw [List.foldl_cons, hstep]

theorem unrecognized_tokens_contribute_zero_witness :
    ((fun _ : String => (0 : ℚ)) "zzz" = 0)
    ∧ "zzz" ∉ positiveKeywords
    ∧ "zzz" ∉ negativeKeywords
    ∧ adjustment ["zzz", "happy"] = adjustment ["happy"] :=
  ⟨rfl, by decide, by decide,
    (unrecognized_tokens_contribute_zero (fun _ => 0) "zzz" ["happy"] 5 "🙂 !!"
      rfl (by decide) (by decide)).2.2.1⟩

/-- C7: when an entry is created with the scorer's output in the request
body, the persisted sentimentScore and mood equal that output verbatim —
the route's `|| 0` and `|| 'Neutral'` fallbacks are identities on scorer
outputs (mood labels are never empty, and a 0 score falls back to 0). -/
theorem create_persists_scorer_output (now : Nat) (lex : String → ℚ)
    (text userId : String) (title content : Option String)
    (tags : Option TagsInput) (e : StoredEntry)
    (h : createEntry now userId title content
          (some (analyzeSentiment lex text).score)
          (some (analyzeSentiment lex text).mood) tags
        = ⟨201, .entry e⟩) :
    e.sentimentScore = (analyzeSentiment lex text).score
    ∧ e.mood = (analyzeSentiment lex text).mood := by
  unfold createEntry at h
  split at h
  · simp at h
  · simp only [HttpResponse.mk.injEq, EntryBody.entry.injEq, true_and] at h
    rw [← h]
    exact ⟨numOr_some_self _,
      strOr_some_of_ne _ _ (determineMood_ne_empty _)⟩

theorem create_persists_scorer_output_witness :
    (createEntry 0 "u" (some "t") (some "c")
        (some (analyzeSentiment (fun _ => 0) "q").score)
        (some (analyzeSentiment (fun _ => 0) "q").mood) none
      = ⟨201, .entry
          { user := "u"
            title := "t"
            content := "c"
            sentimentScore := (analyzeSentiment (fun _ => 0) "q").score
            mood := (analyzeSentiment (fun _ => 0) "q").mood
            tags := ⟨[], [], []⟩
            createdAt := 0
            updatedAt := 0 }⟩)
    ∧ ({ user := "u"
         title := "t"
         content := "c"
         sentimentScore := (analyzeSentiment (fun _ => 0) "q").score
         mood := (analyzeSentiment (fun _ => 0) "q").mood
         tags := ⟨[], [], []⟩
         createdAt := 0
         updatedAt := 0 : StoredEntry }).sentimentScore
        = (analyzeSentiment (fun _ => 0) "q").score := by
  have h : createEntry 0 "u" (some "t") (some "c")
      (some (analyzeSentiment (fun _ => 0) "q").score)
      (some (analyzeSentiment (fun _ => 0) "q").mood) none
      = ⟨201, .entry
          { user := "u"
            title := "t"
            content := "c"
            sentimentScore := (analyzeSentiment (fun _ => 0) "q").score
            mood := (analyzeSentiment (fun _ => 0) "q").mood
            tags := ⟨[], [], []⟩
            createdAt := 0
            updatedAt := 0 }⟩ := by
    have hm : (analyzeSentiment (fun _ => 0) "q").mood ≠ "" :=
      determineMood_ne_empty _
    unfold createEntry
    rw [if_neg (by decide)]
    simp [numOr_some_self, arrOr, strOr_some_of_ne _ _ hm]
  exact ⟨h,
    (create_persists_scorer_output 0 (fun _ => 0) "q" "u" (some "t") (some "c")
      none _ h).1⟩

/-- C8: the score-to-mood mapping is monotone — a lower score never maps
to a strictly higher label in the order Very Depressed < Depressed < Sad
< Neutral < Content < Happy < Ecstatic. -/
theorem determineMood_monotone (s1 s2 : ℚ) (h : s1 ≤ s2) :
    labelRank (determineMood s1) ≤ labelRank (determineMood s2) := by
  unfold determineMood
  split_ifs <;> first | decide | linarith

theorem determineMood_monotone_witness :
    ((0 : ℚ) ≤ 1)
    ∧ labelRank (determineMood 0) ≤ labelRank (determineMood 1) :=
  ⟨by norm_num, determineMood_monotone 0 1 (by norm_num)⟩

/-- C9: a GET, PUT or DELETE on an existing entry owned by a different
user responds 403 with "Not authorized", returns no entry contents, and
leaves the store untouched (no update, no deletion). -/
theorem foreign_entry_forbidden (now : Nat) (store : Store) (uid : String)
    (eid : Nat) (e : StoredEntry) (b : UpdateBody)
    (hfind : store eid = some e) (howner : e.user ≠ uid) :
    getById store uid eid = ⟨403, .message "Not authorized"⟩
    ∧ putById now store uid eid b = (⟨403, .message "Not authorized"⟩, store)
    ∧ deleteById store uid eid = (⟨403, .message "Not authorized"⟩, store) := by
  unfold getById putById deleteById
  rw [hfind]
  simp [howner]

theorem foreign_entry_forbidden_witness :
    (sampleStore 0 = some sampleEntry)
    ∧ (sampleEntry.user ≠ "bob")
    ∧ getById sampleStore "bob" 0 = ⟨403, .message "Not authorized"⟩ :=
  ⟨rfl, by decide,
    (foreign_entry_forbidden 1 sampleStore "bob" 0 sampleEntry emptyBody rfl
      (by decide)).1⟩

/-- C10 counterexample: a PUT with an all-absent body on an owned entry
does not leave every unmentioned field unchanged — the pre-save hook
stamps updatedAt with the save time (here 1, was 0), so the stored entry
differs from the previous one. -/
theorem put_unmentioned_fields_cex :
    ((putById 1 sampleStore "alice" 0 emptyBody).2 0).map StoredEntry.updatedAt
      = some 1
    ∧ (sampleStore 0).map StoredEntry.updatedAt = some 0
    ∧ (putById 1 sampleStore "alice" 0 emptyBody).2 0 ≠ sampleStore 0 := by
  have h1 : ((putById 1 sampleStore "alice" 0 emptyBody).2 0).map
      StoredEntry.updatedAt = some 1 := rfl
  have h2 : (sampleStore 0).map StoredEntry.updatedAt = some 0 := rfl
  refine ⟨h1, h2, fun h => ?_⟩
  rw [h, h2] at h1
  exact absurd h1 (by simp)

/-- C10 (amended): on PUT of an owned entry, a falsy title, content or
mood keeps the stored field; sentimentScore is replaced whenever present
in the body, even when 0, and kept when absent; a falsy category inside a
supplied tags object keeps the old list, and an absent tags object keeps
all tags; user and createdAt keep their previous values; updatedAt is set
to the save time by the pre-save hook. -/
theorem put_update_field_semantics (now : Nat) (store : Store) (uid : String)
    (eid : Nat) (e : StoredEntry) (b : UpdateBody) (e1 : StoredEntry)
    (hfind : store eid = some e) (howner : e.user = uid)
    (hres : (putById now store uid eid b).2 eid = some e1) :
    (strFalsy b.title → e1.title = e.title)
    ∧ (strFalsy b.content → e1.content = e.content)
    ∧ (strFalsy b.mood → e1.mood = e.mood)
    ∧ (∀ s, b.sentimentScore = some s → e1.sentimentScore = s)
    ∧ (b.sentimentScore = none → e1.sentimentScore = e.sentimentScore)
    ∧ (∀ t, b.tags = some t →
        ((t.emotions = none → e1.tags.emotions = e.tags.emotions)
          ∧ (t.people = none → e1.tags.people = e.tags.people)
          ∧ (t.activities = none → e1.tags.activities = e.tags.activities)))
    ∧ (b.tags = none → e1.tags = e.tags)
    ∧ e1.user = e.user
    ∧ e1.createdAt = e.createdAt
    ∧ e1.updatedAt = now := by
  have he1 : e1 = presave now (updateFields e b) := by
    unfold putById at hres
    rw [hfind] at hres
    simp [howner] at hres
    exact hres.symm
  subst he1
  refine ⟨?_, ?_, ?_, ?_, ?_, ?_, ?_, rfl, rfl, rfl⟩
  · rintro (h | h) <;> simp [presave, updateFields, strOr, h]
  · rintro (h | h) <;> simp [presave, updateFields, strOr, h]
  · rintro (h | h) <;> simp [presave, updateFields, strOr, h]
  · intro s hs
    simp [presave, updateFields, hs]
  · intro hs
    simp [presave, updateFields, hs]
  · intro t ht
    refine ⟨fun hc => ?_, fun hc => ?_, fun hc => ?_⟩ <;>
      simp [presave, updateFields, ht, hc, arrOr]
  · intro ht
    simp [presave, updateFields, ht]

theorem put_update_field_semantics_witness :
    (sampleStore 0 = some sampleEntry)
    ∧ (sampleEntry.user = "alice")
    ∧ ((putById 1 sampleStore "alice" 0 emptyBody).2 0
        = some (presave 1 (updateFields sampleEntry emptyBody)))
    ∧ (presave 1 (updateFields sampleEntry emptyBody)).updatedAt = 1 :=
  ⟨rfl, rfl, rfl,
    (put_update_field_semantics 1 sampleStore "alice" 0 sampleEntry emptyBody _
      rfl rfl rfl).2.2.2.2.2.2.2.2.2⟩

end TrackMyMood
